import Mathlib

/-!
Verification development for the TE5025 calibrator driver
(file src/te5025/driver.py).

The driver is a validation-and-encoding layer in front of a GPIB/VISA
transport.  We embed it shallowly: Python numbers become exact rationals
(the decimal literals and test points used by the driver are all exactly
representable, so exact rational arithmetic agrees with binary64 on every
comparison exercised here), Python values that may be int, float or str
become the sum type `PyVal`, the transport becomes an oracle record
`Transport`, and every driver method becomes a pure function returning its
Python result together with the list of transport events (writes and
queries) it performed, in order.
-/

/-- A Python value as accepted by the driver methods: an int, a float
(modelled as an exact rational) or a string. -/
inductive PyVal where
  | int (n : Int)
  | float (q : ℚ)
  | str (s : String)
deriving DecidableEq

/-- A transport event: a command written to the instrument, or a query
sent to it.  Each driver function returns the ordered list of events it
caused. -/
inductive Ev where
  | wr (s : String)
  | qy (s : String)
deriving DecidableEq

/-- The transport collaborator (pyvisa instrument handle): whether the
connection is open, the reply the instrument gives to each query (none
models a raised transport error), and whether each write succeeds. -/
structure Transport where
  connected : Bool
  reply : String → Option String
  writeOk : String → Bool

/-- Embeds the private method that writes one command
(driver.py lines 42-54): when connected, the command is transmitted and
the boolean write status returned; when not connected nothing is
transmitted and False is returned. -/
def writeData (t : Transport) (d : String) : Bool × List Ev :=
  if t.connected then (t.writeOk d, [Ev.wr d]) else (false, [])

/-- Embeds the private method that performs one query
(driver.py lines 29-40): when connected, the query is transmitted and the
reply returned (none when the query raised); when not connected nothing is
transmitted and Python None (here none) is returned. -/
def getData (t : Transport) (q : String) : Option String × List Ev :=
  if t.connected then (t.reply q, [Ev.qy q]) else (none, [])

/-- Multiplication on ℚ written through mkRat so that it evaluates inside
the kernel; proven equal to the standard multiplication below. -/
def qMul (a b : ℚ) : ℚ := mkRat (a.num * b.num) (a.den * b.den)

/-- Accumulate the value of a digit string, failing on a non-digit. -/
def digitsValAux (acc : Nat) : List Char → Option Nat
  | [] => some acc
  | c :: cs => if c.isDigit then digitsValAux (acc * 10 + (c.toNat - 48)) cs else none

/-- Embeds Python float() applied to a string, for plain decimal forms
(optional sign, digits, optional fractional part).  Forms outside this
fragment (surrounding whitespace, exponents, inf, nan) are modelled as
failing. -/
def parseDecimal (s : String) : Option ℚ :=
  let cs := s.toList
  let neg : Bool := match cs with
    | '-' :: _ => true
    | _ => false
  let cs : List Char := match cs with
    | '-' :: r => r
    | '+' :: r => r
    | r => r
  let ip := cs.takeWhile Char.isDigit
  let rest := cs.dropWhile Char.isDigit
  match rest with
  | [] =>
    if ip.isEmpty then none
    else (digitsValAux 0 ip).map (fun v => mkRat (if neg then -(v : Int) else (v : Int)) 1)
  | '.' :: fp =>
    if ip.isEmpty ∧ fp.isEmpty then none
    else if fp.all Char.isDigit then
      match digitsValAux 0 ip, digitsValAux 0 fp with
      | some iv, some fv =>
        let n : Int := (iv * 10 ^ fp.length + fv : Nat)
        some (mkRat (if neg then -n else n) (10 ^ fp.length))
      | _, _ => none
    else none
  | _ => none

/-- Embeds Python int() applied to a string: optional sign and digits. -/
def parseIntStr (s : String) : Option Int :=
  let cs := s.toList
  let sgn : Int := match cs with
    | '-' :: _ => -1
    | _ => 1
  let cs : List Char := match cs with
    | '-' :: r => r
    | '+' :: r => r
    | r => r
  if cs.isEmpty then none
  else (digitsValAux 0 cs).map (fun v => sgn * v)

/-- Embeds Python float() on a driver argument: ints and floats convert,
strings are parsed as decimals; none models a raised ValueError. -/
def pyFloat : PyVal → Option ℚ
  | .int n => some (n : ℚ)
  | .float q => some q
  | .str s => parseDecimal s

/-- Embeds Python int() on a driver argument: floats truncate toward
zero, strings must be integer literals. -/
def pyInt : PyVal → Option Int
  | .int n => some n
  | .float q => some (q.num.tdiv (q.den : Int))
  | .str s => parseIntStr s

/-- Embeds the repr Python produces for a float in an f-string, for
values with a finite decimal expansion: integral values print with a
trailing .0, fractional values print their decimal digits. -/
def floatRepr (q : ℚ) : String :=
  let k := (((List.range 21).find? (fun k => 10 ^ k % q.den == 0)).getD 20)
  let m : Int := q.num * ((10 ^ k / q.den : Nat) : Int)
  if k == 0 then
    toString m ++ ".0"
  else
    let a := m.natAbs
    let ip := a / 10 ^ k
    let fp := a % 10 ^ k
    let fs := toString fp
    let fs := String.mk (List.replicate (k - fs.length) '0') ++ fs
    (if m < 0 then "-" else "") ++ toString ip ++ "." ++ fs

/-- Embeds the text an f-string interpolates for a driver argument:
ints print as decimal integers, floats as their repr, strings as
themselves. -/
def pyRepr : PyVal → String
  | .int n => toString n
  | .float q => floatRepr q
  | .str s => s

/-- Embeds the Python == test used by list membership: numeric values
compare by value across int and float, strings compare by equality, a
number never equals a string. -/
def pyEq : PyVal → PyVal → Bool
  | .int a, .int b => a == b
  | .int a, .float b => ((a : ℚ) == b)
  | .float a, .int b => (a == (b : ℚ))
  | .float a, .float b => a == b
  | .str a, .str b => a == b
  | _, _ => false

/-- Embeds the Python str.upper method for the ASCII strings the driver
handles. -/
def strUpper (s : String) : String := String.mk (s.toList.map Char.toUpper)

/-! Driver method embeddings.  Each function returns the Python result
paired with the ordered list of transport events it performed. -/

/-- The admissible voltage range tokens (driver.py line 149): the string
spellings and the numeric literals 0.02, 0.2, 2, 20, 200, 1000. -/
def voltageRangeTokens : List PyVal :=
  [.str ("20mV"), .str ("200mV"), .str ("2V"), .str ("20V"), .str ("200V"), .str ("1kV"),
   .float (mkRat 1 50), .float (mkRat 1 5), .int 2, .int 20, .int 200, .int 1000]

/-- The admissible current range tokens (driver.py line 218): the string
spellings and the numeric literals 2E-4, 2E-3, 0.02, 0.2, 2, 20. -/
def currentRangeTokens : List PyVal :=
  [.str ("200uA"), .str ("2mA"), .str ("20mA"), .str ("200mA"), .str ("2A"), .str ("20A"),
   .float (mkRat 1 5000), .float (mkRat 1 500), .float (mkRat 1 50), .float (mkRat 1 5),
   .int 2, .int 20]

/-- Embeds set_voltage_range (driver.py lines 140-152): reject a token
outside the admissible list, otherwise transmit the range command with
the token spelled as given. -/
def set_voltage_range (t : Transport) (range : PyVal) : Bool × List Ev :=
  if voltageRangeTokens.any (fun v => pyEq range v) then
    writeData t ("VOLT:RANG " ++ pyRepr range)
  else (false, [])

/-- Embeds set_current_range (driver.py lines 209-221). -/
def set_current_range (t : Transport) (range : PyVal) : Bool × List Ev :=
  if currentRangeTokens.any (fun v => pyEq range v) then
    writeData t ("CURR:RANG " ++ pyRepr range)
  else (false, [])

/-- Embeds get_voltage_range (driver.py lines 175-181). -/
def get_voltage_range (t : Transport) : Option String × List Ev :=
  getData t ("VOLT:RANG?")

/-- Embeds get_current_range (driver.py lines 246-252). -/
def get_current_range (t : Transport) : Option String × List Ev :=
  getData t ("CURR:RANG?")

/-- Embeds set_voltage_amplitude (driver.py lines 154-173): coerce the
argument to float, check the closed interval -1050 to 1050, query the
active voltage range, check the amplitude against 1.1 times that range,
then transmit the amplitude command; any conversion failure is caught and
returns False. -/
def set_voltage_amplitude (t : Transport) (amplitude : PyVal) : Bool × List Ev :=
  match pyFloat amplitude with
  | none => (false, [])
  | some a =>
    if -1050 ≤ a ∧ a ≤ 1050 then
      match get_voltage_range t with
      | (none, e1) => (false, e1)
      | (some s, e1) =>
        match parseDecimal s with
        | none => (false, e1)
        | some r =>
          if a ≤ qMul r (mkRat 11 10) then
            let (b, e2) := writeData t ("VOLT:AMPL " ++ floatRepr a)
            (b, e1 ++ e2)
          else (false, e1)
    else (false, [])

/-- Embeds set_current_amplitude (driver.py lines 224-244): as for the
voltage amplitude but with interval -22 to 22 and the current range. -/
def set_current_amplitude (t : Transport) (amplitude : PyVal) : Bool × List Ev :=
  match pyFloat amplitude with
  | none => (false, [])
  | some a =>
    if -22 ≤ a ∧ a ≤ 22 then
      match get_current_range t with
      | (none, e1) => (false, e1)
      | (some s, e1) =>
        match parseDecimal s with
        | none => (false, e1)
        | some r =>
          if a ≤ qMul r (mkRat 11 10) then
            let (b, e2) := writeData t ("CURR:AMPL " ++ floatRepr a)
            (b, e1 ++ e2)
          else (false, e1)
    else (false, [])

/-- Embeds set_acv_frequency (driver.py lines 299-314): coerce to int;
on coercion failure return False; when the value is in 1..20000 transmit
the frequency command and return the write status; otherwise fall off the
end of the function, which in Python returns None (modelled as none). -/
def set_acv_frequency (t : Transport) (frequency : PyVal) : Option Bool × List Ev :=
  match pyInt frequency with
  | none => (some false, [])
  | some f =>
    if 0 < f ∧ f ≤ 20000 then
      let (b, e) := writeData t ("FREQ " ++ toString f)
      (some b, e)
    else (none, [])

/-- The oscilloscope frequency list (driver.py line 597), as exact
rationals. -/
def oscFrequencies : List ℚ :=
  [mkRat 1 10, mkRat 1 5, mkRat 1 2, 1, 2, 5, 10, 20, 50, 100, 200, 500,
   1000, 2000, 5000, 10000, 20000, 50000, 100000, 200000, 500000,
   1000000, 2000000, 5000000, 10000000, 20000000, 50000000, 100000000]

/-- Embeds set_oscilloscope_frequency (driver.py lines 584-600): coerce
to float (failure returns False); when the value is in the enumerated
list, transmit the command but return nothing (Python None, modelled as
none); when it is not, also fall through to None. -/
def set_oscilloscope_frequency (t : Transport) (frequency : PyVal) : Option Bool × List Ev :=
  match pyFloat frequency with
  | none => (some false, [])
  | some f =>
    if oscFrequencies.any (fun q => f == q) then
      let (_, e) := writeData t ("puls:sfr " ++ floatRepr f)
      (none, e)
    else (none, [])

/-- Embeds get_TC_type (driver.py lines 516-523). -/
def get_TC_type (t : Transport) : Option String × List Ev :=
  getData t ("ther:type?")

/-- Embeds set_TC_temperature (driver.py lines 525-557): coerce the
temperature to float, query the thermocouple type from the instrument,
then check the per-type closed interval before transmitting; a failed
query makes the upper() call raise, which the except clause turns into
False. -/
def set_TC_temperature (t : Transport) (temperature : PyVal) : Bool × List Ev :=
  match pyFloat temperature with
  | none => (false, [])
  | some temp =>
    match get_TC_type t with
    | (none, e1) => (false, e1)
    | (some s, e1) =>
      let ty := strUpper s
      if ty = "J" ∧ -210 ≤ temp ∧ temp ≤ 1200 then
        let (b, e2) := writeData t ("ther " ++ floatRepr temp)
        (b, e1 ++ e2)
      else if ty = "K" ∧ -200 ≤ temp ∧ temp ≤ 1250 then
        let (b, e2) := writeData t ("ther " ++ floatRepr temp)
        (b, e1 ++ e2)
      else if ty = "T" ∧ -200 ≤ temp ∧ temp ≤ 400 then
        let (b, e2) := writeData t ("ther " ++ floatRepr temp)
        (b, e1 ++ e2)
      else if ty = "R" ∧ -50 ≤ temp ∧ temp ≤ 1750 then
        let (b, e2) := writeData t ("ther " ++ floatRepr temp)
        (b, e1 ++ e2)
      else if ty = "S" ∧ -50 ≤ temp ∧ temp ≤ 1750 then
        let (b, e2) := writeData t ("ther " ++ floatRepr temp)
        (b, e1 ++ e2)
      else if ty = "B" ∧ 100 ≤ temp ∧ temp ≤ 1800 then
        let (b, e2) := writeData t ("ther " ++ floatRepr temp)
        (b, e1 ++ e2)
      else if ty = "N" ∧ -200 ≤ temp ∧ temp ≤ 1300 then
        let (b, e2) := writeData t ("ther " ++ floatRepr temp)
        (b, e1 ++ e2)
      else if ty = "E" ∧ -200 ≤ temp ∧ temp ≤ 1000 then
        let (b, e2) := writeData t ("ther " ++ floatRepr temp)
        (b, e1 ++ e2)
      else (false, e1)

/-- Embeds output_disable (driver.py lines 482-488). -/
def output_disable (t : Transport) : Bool × List Ev :=
  writeData t ("OUTP OFF")

/-- Embeds get_output_status (driver.py lines 491-497): the body is a
call to the private write method with the text OUTP?, so it transmits a
write and returns the boolean write status. -/
def get_output_status (t : Transport) : Bool × List Ev :=
  writeData t ("OUTP?")

/-- Embeds the volt_rang breakpoint chain shared by set_ac_power and
set_dc_power (driver.py lines 688-702 and 783-797); none models the
final else branch that returns False. -/
def voltRangChain (v : ℚ) : Option PyVal :=
  if v ≤ mkRat 11 500 then some (.float (mkRat 1 50))
  else if v ≤ mkRat 11 50 then some (.float (mkRat 1 5))
  else if v ≤ mkRat 11 5 then some (.int 2)
  else if v ≤ 22 then some (.int 20)
  else if v ≤ 220 then some (.int 200)
  else if v ≤ 1050 then some (.int 1000)
  else none

/-- Embeds the current_rang breakpoint chain shared by set_ac_power and
set_dc_power (driver.py lines 704-710 and 799-805). -/
def currRangChain (c : ℚ) : Option PyVal :=
  if c ≤ mkRat 11 5 then some (.int 2)
  else if c ≤ 22 then some (.int 20)
  else none

/-- Embeds set_ac_power (driver.py lines 667-730): disable the output,
coerce the four arguments, compute the two breakpoint ranges, then
transmit function select, range pair, magnitude pair and phase unit, and
only then validate phase and frequency before transmitting each. -/
def set_ac_power (t : Transport) (voltage current frequency phase : PyVal) : Bool × List Ev :=
  let (_, e0) := output_disable t
  match pyFloat voltage, pyFloat current, pyFloat frequency, pyFloat phase with
  | some v, some c, some f, some p =>
    match voltRangChain v with
    | none => (false, e0)
    | some vr =>
      match currRangChain c with
      | none => (false, e0)
      | some cr =>
        let (r0, w0) := writeData t ("func sin")
        let (r1, w1) := writeData t ("pow:rang " ++ pyRepr vr ++ "," ++ pyRepr cr)
        let (r2, w2) := writeData t ("pow " ++ floatRepr v ++ "," ++ floatRepr c)
        let (r3, w3) := writeData t ("UNIT:PHAS DEG")
        if -90 ≤ p ∧ p ≤ 90 then
          let (r4, w4) := writeData t ("pow:phase " ++ floatRepr p)
          if 45 ≤ f ∧ f ≤ 400 then
            let (r5, w5) := writeData t ("freq " ++ floatRepr f)
            (r0 && r1 && r2 && r3 && r4 && r5, e0 ++ w0 ++ w1 ++ w2 ++ w3 ++ w4 ++ w5)
          else (false, e0 ++ w0 ++ w1 ++ w2 ++ w3 ++ w4)
        else (false, e0 ++ w0 ++ w1 ++ w2 ++ w3)
  | _, _, _, _ => (false, e0)

/-- Embeds set_dc_power (driver.py lines 766-814): disable the output,
coerce both arguments, compute the breakpoint ranges, then transmit
function select, range pair and magnitude pair. -/
def set_dc_power (t : Transport) (voltage current : PyVal) : Bool × List Ev :=
  let (_, e0) := output_disable t
  match pyFloat voltage, pyFloat current with
  | some v, some c =>
    match voltRangChain v with
    | none => (false, e0)
    | some vr =>
      match currRangChain c with
      | none => (false, e0)
      | some cr =>
        let (r0, w0) := writeData t ("func dc")
        let (r1, w1) := writeData t ("pow:rang " ++ pyRepr vr ++ "," ++ pyRepr cr)
        let (r2, w2) := writeData t ("pow " ++ floatRepr v ++ "," ++ floatRepr c)
        (r0 && r1 && r2, e0 ++ w0 ++ w1 ++ w2)
  | _, _ => (false, e0)

/-- Embeds get_ac_power (driver.py lines 732-748): query the active
function; a failed query raises on the upper() call (modelled as the
error result); when the function is not SIN or the unit unknown, return
the sentinel text error; otherwise set the power unit and return the
reply to the power query. -/
def get_ac_power (t : Transport) (unit : String) : Except Unit (Option String) × List Ev :=
  match getData t ("func?") with
  | (none, e1) => (Except.error (), e1)
  | (some s, e1) =>
    if strUpper s = "SIN" then
      if strUpper unit = "WATT" ∨ strUpper unit = "VA" then
        let (_, e2) := writeData t ("unit:pow " ++ unit)
        let (p, e3) := getData t ("pow:pow?")
        (Except.ok p, e1 ++ e2 ++ e3)
      else (Except.ok (some ("error")), e1)
    else (Except.ok (some ("error")), e1)

/-- Embeds get_dc_power (driver.py lines 816-832): as get_ac_power but
gated on the DC function. -/
def get_dc_power (t : Transport) (unit : String) : Except Unit (Option String) × List Ev :=
  match getData t ("func?") with
  | (none, e1) => (Except.error (), e1)
  | (some s, e1) =>
    if strUpper s = "DC" then
      if strUpper unit = "WATT" ∨ strUpper unit = "VA" then
        let (_, e2) := writeData t ("unit:pow " ++ unit)
        let (p, e3) := getData t ("pow:pow?")
        (Except.ok p, e1 ++ e2 ++ e3)
      else (Except.ok (some ("error")), e1)
    else (Except.ok (some ("error")), e1)

/-- Text an f-string interpolates for an optional query reply: Python
prints None for the missing reply. -/
def pyOptStr : Option String → String
  | none => "None"
  | some s => s

/-- Embeds get_ac_power_parameters (driver.py lines 750-764): gated on
the SIN function; on a mismatch return the sentinel text error, else
return the three query replies joined by commas. -/
def get_ac_power_parameters (t : Transport) : Except Unit (Option String) × List Ev :=
  match getData t ("func?") with
  | (none, e1) => (Except.error (), e1)
  | (some s, e1) =>
    if strUpper s = "SIN" then
      let (va, e2) := getData t ("pow?")
      let (fr, e3) := getData t ("freq?")
      let (ph, e4) := getData t ("pow:phase?")
      (Except.ok (some (pyOptStr va ++ "," ++ pyOptStr fr ++ "," ++ pyOptStr ph)),
       e1 ++ e2 ++ e3 ++ e4)
    else (Except.ok (some ("error")), e1)

/-! Concrete transports used by witnesses and counterexamples. -/

/-- A connected transport whose writes all succeed, with a given reply
table. -/
def okTransport (f : String → Option String) : Transport :=
  { connected := true, reply := f, writeOk := fun _ => true }

/-- A connected transport that answers every query with the empty
string and accepts every write. -/
def allOk : Transport := okTransport (fun _ => some (""))

/-- A transport whose voltage range query reports 20. -/
def tVolt20 : Transport :=
  okTransport (fun q => if q = "VOLT:RANG?" then some ("20") else none)

/-- A transport whose voltage range query reports 0.02. -/
def tVolt002 : Transport :=
  okTransport (fun q => if q = "VOLT:RANG?" then some ("0.02") else none)

/-- A transport whose current range query reports 20. -/
def tCurr20 : Transport :=
  okTransport (fun q => if q = "CURR:RANG?" then some ("20") else none)

/-- A transport whose thermocouple type query reports K. -/
def tTypeK : Transport :=
  okTransport (fun q => if q = "ther:type?" then some ("K") else none)

/-- A transport whose thermocouple type query reports J. -/
def tTypeJ : Transport :=
  okTransport (fun q => if q = "ther:type?" then some ("J") else none)

/-- A transport whose function query reports SIN. -/
def tFuncSIN : Transport :=
  okTransport (fun q => if q = "func?" then some ("SIN") else none)

/-- A transport with the connection closed, as after close_connection. -/
def closedTransport : Transport :=
  { connected := false, reply := fun _ => none, writeOk := fun _ => false }

/-! Bridge lemmas between the kernel-computable arithmetic in the
definitions and the standard field operations used in statements. -/

theorem qMul_eq (a b : ℚ) : qMul a b = a * b := by
  rw [qMul, Rat.mkRat_eq_div]
  push_cast
  rw [← div_mul_div_comm, Rat.num_div_den, Rat.num_div_den]

theorem qMul_headroom (r : ℚ) : qMul r (mkRat 11 10) = r * (11/10) := by
  rw [qMul_eq, Rat.mkRat_eq_div]
  norm_num

/-- Characterization of set_voltage_amplitude when the range query
succeeds and its reply parses as a number. -/
theorem set_voltage_amplitude_char (t : Transport) (a : PyVal) (s : String) (r x : ℚ)
    (hc : t.connected = true) (hs : t.reply ("VOLT:RANG?") = some s)
    (hp : parseDecimal s = some r) (hx : pyFloat a = some x) :
    set_voltage_amplitude t a =
      if -1050 ≤ x ∧ x ≤ 1050 then
        if x ≤ r * (11/10) then
          (t.writeOk ("VOLT:AMPL " ++ floatRepr x),
           [Ev.qy ("VOLT:RANG?"), Ev.wr ("VOLT:AMPL " ++ floatRepr x)])
        else (false, [Ev.qy ("VOLT:RANG?")])
      else (false, []) := by
  rw [show r * (11/10 : ℚ) = qMul r (mkRat 11 10) from (qMul_headroom r).symm]
  simp only [set_voltage_amplitude, hx, get_voltage_range, getData, hc, if_true, hs, hp, writeData]
  split_ifs <;> simp

/-- Characterization of set_current_amplitude when the range query
succeeds and its reply parses as a number. -/
theorem set_current_amplitude_char (t : Transport) (a : PyVal) (s : String) (r x : ℚ)
    (hc : t.connected = true) (hs : t.reply ("CURR:RANG?") = some s)
    (hp : parseDecimal s = some r) (hx : pyFloat a = some x) :
    set_current_amplitude t a =
      if -22 ≤ x ∧ x ≤ 22 then
        if x ≤ r * (11/10) then
          (t.writeOk ("CURR:AMPL " ++ floatRepr x),
           [Ev.qy ("CURR:RANG?"), Ev.wr ("CURR:AMPL " ++ floatRepr x)])
        else (false, [Ev.qy ("CURR:RANG?")])
      else (false, []) := by
  rw [show r * (11/10 : ℚ) = qMul r (mkRat 11 10) from (qMul_headroom r).symm]
  simp only [set_current_amplitude, hx, get_current_range, getData, hc, if_true, hs, hp, writeData]
  split_ifs <;> simp

/-- C1: every amplitude accepted by set_voltage_amplitude (resp.
set_current_amplitude) coerces to a number, lies in the closed interval
-1050 to 1050 V (resp. -22 to 22 A) and is at most 1.1 times the range
re-queried from the instrument during the call; exactly then is the
amplitude command transmitted, and otherwise the call returns False and
transmits no command.  In particular, with the instrument reporting
range 20, amplitude 22 is accepted and 22.01 rejected. -/
theorem C1_amplitude_validated_against_queried_range :
    (∀ (t : Transport) (a : PyVal) (s : String) (r x : ℚ),
        t.connected = true → t.reply ("VOLT:RANG?") = some s →
        parseDecimal s = some r → pyFloat a = some x →
        ((-1050 ≤ x ∧ x ≤ 1050 ∧ x ≤ r * (11/10)) →
            set_voltage_amplitude t a =
              (t.writeOk ("VOLT:AMPL " ++ floatRepr x),
               [Ev.qy ("VOLT:RANG?"), Ev.wr ("VOLT:AMPL " ++ floatRepr x)])) ∧
        (¬ (-1050 ≤ x ∧ x ≤ 1050 ∧ x ≤ r * (11/10)) →
            (set_voltage_amplitude t a).1 = false ∧
            ∀ m, Ev.wr m ∉ (set_voltage_amplitude t a).2)) ∧
    (∀ (t : Transport) (a : PyVal), pyFloat a = none →
        set_voltage_amplitude t a = (false, []) ∧
        set_current_amplitude t a = (false, [])) ∧
    (∀ (t : Transport) (a : PyVal) (s : String) (r x : ℚ),
        t.connected = true → t.reply ("CURR:RANG?") = some s →
        parseDecimal s = some r → pyFloat a = some x →
        ((-22 ≤ x ∧ x ≤ 22 ∧ x ≤ r * (11/10)) →
            set_current_amplitude t a =
              (t.writeOk ("CURR:AMPL " ++ floatRepr x),
               [Ev.qy ("CURR:RANG?"), Ev.wr ("CURR:AMPL " ++ floatRepr x)])) ∧
        (¬ (-22 ≤ x ∧ x ≤ 22 ∧ x ≤ r * (11/10)) →
            (set_current_amplitude t a).1 = false ∧
            ∀ m, Ev.wr m ∉ (set_current_amplitude t a).2)) := by
  refine ⟨?_, ?_, ?_⟩
  · intro t a s r x hc hs hp hx
    have h := set_voltage_amplitude_char t a s r x hc hs hp hx
    constructor
    · rintro ⟨h1, h2, h3⟩
      rw [h, if_pos ⟨h1, h2⟩, if_pos h3]
    · intro hn
      by_cases hiv : -1050 ≤ x ∧ x ≤ 1050
      · have h3 : ¬ x ≤ r * (11/10) := fun h3 => hn ⟨hiv.1, hiv.2, h3⟩
        rw [h, if_pos hiv, if_neg h3]
        exact ⟨rfl, by simp⟩
      · rw [h, if_neg hiv]
        exact ⟨rfl, by simp⟩
  · intro t a hx
    constructor <;> simp [set_voltage_amplitude, set_current_amplitude, hx]
  · intro t a s r x hc hs hp hx
    have h := set_current_amplitude_char t a s r x hc hs hp hx
    constructor
    · rintro ⟨h1, h2, h3⟩
      rw [h, if_pos ⟨h1, h2⟩, if_pos h3]
    · intro hn
      by_cases hiv : -22 ≤ x ∧ x ≤ 22
      · have h3 : ¬ x ≤ r * (11/10) := fun h3 => hn ⟨hiv.1, hiv.2, h3⟩
        rw [h, if_pos hiv, if_neg h3]
        exact ⟨rfl, by simp⟩
      · rw [h, if_neg hiv]
        exact ⟨rfl, by simp⟩

/-- Witness for C1: with the instrument reporting voltage range 20,
amplitude 22 is accepted and the amplitude command transmitted, while
amplitude 22.01 returns False. -/
theorem C1_witness :
    set_voltage_amplitude tVolt20 (PyVal.int 22) =
      (tVolt20.writeOk ("VOLT:AMPL " ++ floatRepr 22),
       [Ev.qy ("VOLT:RANG?"), Ev.wr ("VOLT:AMPL " ++ floatRepr 22)]) ∧
    (set_voltage_amplitude tVolt20 (PyVal.float (mkRat 2201 100))).1 = false := by
  constructor
  · exact (C1_amplitude_validated_against_queried_range.1 tVolt20 (PyVal.int 22) ("20") 20 22
      rfl rfl (by decide) (by decide)).1 (by norm_num)
  · exact ((C1_amplitude_validated_against_queried_range.1 tVolt20
      (PyVal.float (mkRat 2201 100)) ("20") 20 (mkRat 2201 100)
      rfl rfl (by decide) rfl).2
      (by rintro ⟨-, -, h3⟩; rw [Rat.mkRat_eq_div] at h3; norm_num at h3)).1

/-- C10: the 110 percent headroom check is a signed comparison, so a
negative amplitude within the hard interval always passes it whenever
the instrument reports a non-negative numeric range, no matter how large
the amplitude magnitude is relative to that range, and the amplitude
command is transmitted. -/
theorem C10_negative_amplitude_passes_headroom :
    (∀ (t : Transport) (a : PyVal) (s : String) (r x : ℚ),
        t.connected = true → t.reply ("VOLT:RANG?") = some s →
        parseDecimal s = some r → 0 ≤ r → pyFloat a = some x →
        x < 0 → -1050 ≤ x →
        set_voltage_amplitude t a =
          (t.writeOk ("VOLT:AMPL " ++ floatRepr x),
           [Ev.qy ("VOLT:RANG?"), Ev.wr ("VOLT:AMPL " ++ floatRepr x)])) ∧
    (∀ (t : Transport) (a : PyVal) (s : String) (r x : ℚ),
        t.connected = true → t.reply ("CURR:RANG?") = some s →
        parseDecimal s = some r → 0 ≤ r → pyFloat a = some x →
        x < 0 → -22 ≤ x →
        set_current_amplitude t a =
          (t.writeOk ("CURR:AMPL " ++ floatRepr x),
           [Ev.qy ("CURR:RANG?"), Ev.wr ("CURR:AMPL " ++ floatRepr x)])) := by
  constructor
  · intro t a s r x hc hs hp hr hx hneg hlow
    have hnn : (0 : ℚ) ≤ r * (11/10) := mul_nonneg hr (by norm_num)
    have h := set_voltage_amplitude_char t a s r x hc hs hp hx
    rw [h, if_pos ⟨hlow, by linarith⟩, if_pos (by linarith)]
  · intro t a s r x hc hs hp hr hx hneg hlow
    have hnn : (0 : ℚ) ≤ r * (11/10) := mul_nonneg hr (by norm_num)
    have h := set_current_amplitude_char t a s r x hc hs hp hx
    rw [h, if_pos ⟨hlow, by linarith⟩, if_pos (by linarith)]

/-- Witness for C10: with the instrument reporting the 0.02 V range,
amplitude -1000 is accepted and transmitted. -/
theorem C10_witness :
    set_voltage_amplitude tVolt002 (PyVal.int (-1000)) =
      (tVolt002.writeOk ("VOLT:AMPL " ++ floatRepr (-1000)),
       [Ev.qy ("VOLT:RANG?"), Ev.wr ("VOLT:AMPL " ++ floatRepr (-1000))]) :=
  C10_negative_amplitude_passes_headroom.1 tVolt002 (PyVal.int (-1000)) ("0.02")
    (mkRat 1 50) (-1000) rfl rfl (by decide) (by decide) (by decide)
    (by decide) (by decide)

/-- C5: set_TC_temperature validates the coerced temperature against the
per-type closed interval for the thermocouple type queried from the
instrument during the call (J, K, T, R, S, B, N, E with their bounds);
when the type and bound match, the temperature command is transmitted,
otherwise the call returns False having performed only the type query. -/
theorem C5_TC_temperature_per_type :
    ∀ (t : Transport) (temp : PyVal) (s : String) (x : ℚ),
      t.connected = true → t.reply ("ther:type?") = some s →
      pyFloat temp = some x →
      (((strUpper s = "J" ∧ -210 ≤ x ∧ x ≤ 1200) ∨
        (strUpper s = "K" ∧ -200 ≤ x ∧ x ≤ 1250) ∨
        (strUpper s = "T" ∧ -200 ≤ x ∧ x ≤ 400) ∨
        (strUpper s = "R" ∧ -50 ≤ x ∧ x ≤ 1750) ∨
        (strUpper s = "S" ∧ -50 ≤ x ∧ x ≤ 1750) ∨
        (strUpper s = "B" ∧ 100 ≤ x ∧ x ≤ 1800) ∨
        (strUpper s = "N" ∧ -200 ≤ x ∧ x ≤ 1300) ∨
        (strUpper s = "E" ∧ -200 ≤ x ∧ x ≤ 1000)) →
          set_TC_temperature t temp =
            (t.writeOk ("ther " ++ floatRepr x),
             [Ev.qy ("ther:type?"), Ev.wr ("ther " ++ floatRepr x)])) ∧
      (¬ ((strUpper s = "J" ∧ -210 ≤ x ∧ x ≤ 1200) ∨
          (strUpper s = "K" ∧ -200 ≤ x ∧ x ≤ 1250) ∨
          (strUpper s = "T" ∧ -200 ≤ x ∧ x ≤ 400) ∨
          (strUpper s = "R" ∧ -50 ≤ x ∧ x ≤ 1750) ∨
          (strUpper s = "S" ∧ -50 ≤ x ∧ x ≤ 1750) ∨
          (strUpper s = "B" ∧ 100 ≤ x ∧ x ≤ 1800) ∨
          (strUpper s = "N" ∧ -200 ≤ x ∧ x ≤ 1300) ∨
          (strUpper s = "E" ∧ -200 ≤ x ∧ x ≤ 1000)) →
          set_TC_temperature t temp = (false, [Ev.qy ("ther:type?")])) := by
  intro t temp s x hc hs hx
  constructor
  · intro hr
    simp only [set_TC_temperature, hx, get_TC_type, getData, hc, if_true, hs, writeData]
    rcases hr with ⟨hty, h1, h2⟩ | ⟨hty, h1, h2⟩ | ⟨hty, h1, h2⟩ | ⟨hty, h1, h2⟩ |
      ⟨hty, h1, h2⟩ | ⟨hty, h1, h2⟩ | ⟨hty, h1, h2⟩ | ⟨hty, h1, h2⟩
    · rw [if_pos ⟨hty, h1, h2⟩]
      simp
    · rw [if_neg (fun h => absurd (hty.symm.trans h.1) (by decide)),
          if_pos ⟨hty, h1, h2⟩]
      simp
    · rw [if_neg (fun h => absurd (hty.symm.trans h.1) (by decide)),
          if_neg (fun h => absurd (hty.symm.trans h.1) (by decide)),
          if_pos ⟨hty, h1, h2⟩]
      simp
    · rw [if_neg (fun h => absurd (hty.symm.trans h.1) (by decide)),
          if_neg (fun h => absurd (hty.symm.trans h.1) (by decide)),
          if_neg (fun h => absurd (hty.symm.trans h.1) (by decide)),
          if_pos ⟨hty, h1, h2⟩]
      simp
    · rw [if_neg (fun h => absurd (hty.symm.trans h.1) (by decide)),
          if_neg (fun h => absurd (hty.symm.trans h.1) (by decide)),
          if_neg (fun h => absurd (hty.symm.trans h.1) (by decide)),
          if_neg (fun h => absurd (hty.symm.trans h.1) (by decide)),
          if_pos ⟨hty, h1, h2⟩]
      simp
    · rw [if_neg (fun h => absurd (hty.symm.trans h.1) (by decide)),
          if_neg (fun h => absurd (hty.symm.trans h.1) (by decide)),
          if_neg (fun h => absurd (hty.symm.trans h.1) (by decide)),
          if_neg (fun h => absurd (hty.symm.trans h.1) (by decide)),
          if_neg (fun h => absurd (hty.symm.trans h.1) (by decide)),
          if_pos ⟨hty, h1, h2⟩]
      simp
    · rw [if_neg (fun h => absurd (hty.symm.trans h.1) (by decide)),
          if_neg (fun h => absurd (hty.symm.trans h.1) (by decide)),
          if_neg (fun h => absurd (hty.symm.trans h.1) (by decide)),
          if_neg (fun h => absurd (hty.symm.trans h.1) (by decide)),
          if_neg (fun h => absurd (hty.symm.trans h.1) (by decide)),
          if_neg (fun h => absurd (hty.symm.trans h.1) (by decide)),
          if_pos ⟨hty, h1, h2⟩]
      simp
    · rw [if_neg (fun h => absurd (hty.symm.trans h.1) (by decide)),
          if_neg (fun h => absurd (hty.symm.trans h.1) (by decide)),
          if_neg (fun h => absurd (hty.symm.trans h.1) (by decide)),
          if_neg (fun h => absurd (hty.symm.trans h.1) (by decide)),
          if_neg (fun h => absurd (hty.symm.trans h.1) (by decide)),
          if_neg (fun h => absurd (hty.symm.trans h.1) (by decide)),
          if_neg (fun h => absurd (hty.symm.trans h.1) (by decide)),
          if_pos ⟨hty, h1, h2⟩]
      simp
  · intro hn
    simp only [set_TC_temperature, hx, get_TC_type, getData, hc, if_true, hs, writeData]
    split_ifs with g1 g2 g3 g4 g5 g6 g7 g8
    · exact absurd (Or.inl g1) hn
    · exact absurd (Or.inr (Or.inl g2)) hn
    · exact absurd (Or.inr (Or.inr (Or.inl g3))) hn
    · exact absurd (Or.inr (Or.inr (Or.inr (Or.inl g4)))) hn
    · exact absurd (Or.inr (Or.inr (Or.inr (Or.inr (Or.inl g5))))) hn
    · exact absurd (Or.inr (Or.inr (Or.inr (Or.inr (Or.inr (Or.inl g6)))))) hn
    · exact absurd (Or.inr (Or.inr (Or.inr (Or.inr (Or.inr (Or.inr (Or.inl g7))))))) hn
    · exact absurd (Or.inr (Or.inr (Or.inr (Or.inr (Or.inr (Or.inr (Or.inr g8))))))) hn
    · rfl

/-- Witness for C5: with type K reported, 1250 is accepted and 1251
rejected; with type J reported, 1250 is rejected. -/
theorem C5_witness :
    set_TC_temperature tTypeK (PyVal.int 1250) =
      (tTypeK.writeOk ("ther " ++ floatRepr 1250),
       [Ev.qy ("ther:type?"), Ev.wr ("ther " ++ floatRepr 1250)]) ∧
    set_TC_temperature tTypeK (PyVal.int 1251) = (false, [Ev.qy ("ther:type?")]) ∧
    set_TC_temperature tTypeJ (PyVal.int 1250) = (false, [Ev.qy ("ther:type?")]) := by
  refine ⟨?_, ?_, ?_⟩
  · exact (C5_TC_temperature_per_type tTypeK (PyVal.int 1250) ("K") 1250
      rfl rfl (by decide)).1 (Or.inr (Or.inl (by decide)))
  · exact (C5_TC_temperature_per_type tTypeK (PyVal.int 1251) ("K") 1251
      rfl rfl (by decide)).2 (by decide)
  · exact (C5_TC_temperature_per_type tTypeJ (PyVal.int 1250) ("J") 1250
      rfl rfl (by decide)).2 (by decide)

/-- C8: when the instrument reports a function other than DC (for
example SIN), get_dc_power returns the sentinel text error having only
performed the function query, so the power query is never issued;
get_ac_power_parameters behaves symmetrically when the function is not
SIN. -/
theorem C8_mode_gating :
    (∀ (t : Transport) (u s : String),
        t.connected = true → t.reply ("func?") = some s → strUpper s ≠ "DC" →
        get_dc_power t u = (Except.ok (some ("error")), [Ev.qy ("func?")]) ∧
        Ev.qy ("pow:pow?") ∉ (get_dc_power t u).2) ∧
    (∀ (t : Transport) (s : String),
        t.connected = true → t.reply ("func?") = some s → strUpper s ≠ "SIN" →
        get_ac_power_parameters t = (Except.ok (some ("error")), [Ev.qy ("func?")])) := by
  constructor
  · intro t u s hc hs hne
    have h : get_dc_power t u = (Except.ok (some ("error")), [Ev.qy ("func?")]) := by
      simp only [get_dc_power, getData, hc, if_true, hs, if_neg hne]
    refine ⟨h, ?_⟩
    rw [h]
    simp
  · intro t s hc hs hne
    simp only [get_ac_power_parameters, getData, hc, if_true, hs, if_neg hne]

/-- Witness for C8: with the instrument reporting function SIN,
get_dc_power returns the error sentinel and never queries the power. -/
theorem C8_witness :
    get_dc_power tFuncSIN ("WATT") = (Except.ok (some ("error")), [Ev.qy ("func?")]) ∧
    Ev.qy ("pow:pow?") ∉ (get_dc_power tFuncSIN ("WATT")).2 :=
  C8_mode_gating.1 tFuncSIN ("WATT") ("SIN") rfl rfl (by decide)

/-- C7: get_output_status transmits the text OUTP? through the write
path and returns the boolean write status; it performs no query and
never returns an instrument reply, contradicting its documented
string-reply contract. -/
theorem C7_get_output_status_is_a_write :
    ∀ t : Transport, t.connected = true →
      get_output_status t = (t.writeOk ("OUTP?"), [Ev.wr ("OUTP?")]) ∧
      ∀ q, Ev.qy q ∉ (get_output_status t).2 := by
  intro t hc
  have h : get_output_status t = (t.writeOk ("OUTP?"), [Ev.wr ("OUTP?")]) := by
    simp only [get_output_status, writeData, hc, if_true]
  refine ⟨h, ?_⟩
  rw [h]
  simp

/-- Witness for C7: on a connected, accepting transport the call
returns the boolean True and the only event is the write of OUTP?. -/
theorem C7_witness :
    get_output_status allOk = (allOk.writeOk ("OUTP?"), [Ev.wr ("OUTP?")]) ∧
    ∀ q, Ev.qy q ∉ (get_output_status allOk).2 :=
  C7_get_output_status_is_a_write allOk rfl

/-- C9: every successful set_ac_power call transmits exactly the
sequence output-disable, function-select, range-select, magnitude,
phase unit, phase, frequency, in that order. -/
theorem C9_ac_power_command_order :
    ∀ (t : Transport) (voltage current frequency phase : PyVal),
      (set_ac_power t voltage current frequency phase).1 = true →
      ∃ rangeArgs powArgs phaseArg freqArg,
        (set_ac_power t voltage current frequency phase).2 =
          [Ev.wr ("OUTP OFF"), Ev.wr ("func sin"), Ev.wr ("pow:rang " ++ rangeArgs),
           Ev.wr ("pow " ++ powArgs), Ev.wr ("UNIT:PHAS DEG"),
           Ev.wr ("pow:phase " ++ phaseArg), Ev.wr ("freq " ++ freqArg)] := by
  intro t voltage current frequency phase h
  by_cases hc : t.connected = true
  · rcases hpv : pyFloat voltage with _ | vq <;>
    rcases hpc : pyFloat current with _ | cq <;>
    rcases hpf : pyFloat frequency with _ | fq <;>
    rcases hpp : pyFloat phase with _ | pq <;>
    simp only [set_ac_power, output_disable, writeData, hc, if_true, hpv, hpc, hpf, hpp] at h ⊢ <;>
    try simp at h
    rcases hvr : voltRangChain vq with _ | vr <;> simp only [hvr] at h ⊢
    · simp at h
    rcases hcr : currRangChain cq with _ | cr <;> simp only [hcr] at h ⊢
    · simp at h
    split_ifs at h ⊢ with h90 h45
    · refine ⟨pyRepr vr ++ "," ++ pyRepr cr, floatRepr vq ++ "," ++ floatRepr cq,
        floatRepr pq, floatRepr fq, ?_⟩
      simp [String.append_assoc]
  · exfalso
    have hcf : t.connected = false := by
      cases hcb : t.connected
      · rfl
      · exact absurd hcb hc
    rcases hpv : pyFloat voltage with _ | vq <;>
    rcases hpc : pyFloat current with _ | cq <;>
    rcases hpf : pyFloat frequency with _ | fq <;>
    rcases hpp : pyFloat phase with _ | pq <;>
    simp only [set_ac_power, output_disable, writeData, hcf, Bool.false_eq_true, if_false,
      hpv, hpc, hpf, hpp] at h <;>
    try simp at h
    rcases hvr : voltRangChain vq with _ | vr <;> simp only [hvr] at h
    · simp at h
    rcases hcr : currRangChain cq with _ | cr <;> simp only [hcr] at h
    · simp at h
    simp at h

/-- Witness for C9: set_ac_power with arguments 230, 10, 50, 5 succeeds
and its transmitted command sequence has the required order. -/
theorem C9_witness :
    (set_ac_power allOk (PyVal.int 230) (PyVal.int 10) (PyVal.int 50) (PyVal.int 5)).1 = true ∧
    ∃ rangeArgs powArgs phaseArg freqArg,
      (set_ac_power allOk (PyVal.int 230) (PyVal.int 10) (PyVal.int 50) (PyVal.int 5)).2 =
        [Ev.wr ("OUTP OFF"), Ev.wr ("func sin"), Ev.wr ("pow:rang " ++ rangeArgs),
         Ev.wr ("pow " ++ powArgs), Ev.wr ("UNIT:PHAS DEG"),
         Ev.wr ("pow:phase " ++ phaseArg), Ev.wr ("freq " ++ freqArg)] :=
  ⟨by decide,
   C9_ac_power_command_order allOk (PyVal.int 230) (PyVal.int 10) (PyVal.int 50) (PyVal.int 5)
     (by decide)⟩

/-- Counterexample to C2: set_ac_power with valid voltage, current and
frequency but phase 100, which fails validation, returns False yet has
already transmitted five commands, so the transport is reached. -/
theorem C2_counterexample :
    set_ac_power allOk (PyVal.int 230) (PyVal.int 10) (PyVal.int 50) (PyVal.int 100) =
      (false,
       [Ev.wr ("OUTP OFF"), Ev.wr ("func sin"), Ev.wr ("pow:rang 1000,20"),
        Ev.wr ("pow 230.0,10.0"), Ev.wr ("UNIT:PHAS DEG")]) ∧
    (set_ac_power allOk (PyVal.int 230) (PyVal.int 10) (PyVal.int 50) (PyVal.int 100)).2 ≠ [] := by
  constructor
  · decide
  · decide

/-- The breakpoint chain yields a range for every voltage up to 1050. -/
theorem voltRangChain_le (v : ℚ) (h : v ≤ 1050) : ∃ vr, voltRangChain v = some vr := by
  unfold voltRangChain
  split_ifs
  all_goals exact ⟨_, rfl⟩

/-- The breakpoint chain yields a range for every current up to 22. -/
theorem currRangChain_le (c : ℚ) (h : c ≤ 22) : ∃ cr, currRangChain c = some cr := by
  unfold currRangChain
  split_ifs
  all_goals exact ⟨_, rfl⟩

/-- C2 (amended): the operations that validate before transmitting
(range setters, the amplitude interval check, the frequency coercion)
return a failure with no transport event; but set_ac_power transmits the
output-disable command before validating, and validates phase only
after transmitting the function, range, magnitude and phase-unit
commands, so an out-of-range phase returns False after five commands
have already been sent. -/
theorem C2_amended_validation_failures :
    (∀ (t : Transport) (r : PyVal),
        (voltageRangeTokens.any (fun v => pyEq r v)) = false →
        set_voltage_range t r = (false, [])) ∧
    (∀ (t : Transport) (r : PyVal),
        (currentRangeTokens.any (fun v => pyEq r v)) = false →
        set_current_range t r = (false, [])) ∧
    (∀ (t : Transport) (a : PyVal) (x : ℚ), pyFloat a = some x →
        ¬ (-1050 ≤ x ∧ x ≤ 1050) → set_voltage_amplitude t a = (false, [])) ∧
    (∀ (t : Transport) (a : PyVal) (x : ℚ), pyFloat a = some x →
        ¬ (-22 ≤ x ∧ x ≤ 22) → set_current_amplitude t a = (false, [])) ∧
    (∀ (t : Transport) (a : PyVal), pyInt a = none →
        set_acv_frequency t a = (some false, [])) ∧
    (∀ (t : Transport) (voltage current frequency phase : PyVal) (vq cq fq pq : ℚ),
        t.connected = true →
        pyFloat voltage = some vq → pyFloat current = some cq →
        pyFloat frequency = some fq → pyFloat phase = some pq →
        vq ≤ 1050 → cq ≤ 22 → ¬ (-90 ≤ pq ∧ pq ≤ 90) →
        (set_ac_power t voltage current frequency phase).1 = false ∧
        Ev.wr ("UNIT:PHAS DEG") ∈ (set_ac_power t voltage current frequency phase).2 ∧
        (set_ac_power t voltage current frequency phase).2 ≠ []) := by
  refine ⟨?_, ?_, ?_, ?_, ?_, ?_⟩
  · intro t r hm
    simp [set_voltage_range, hm]
  · intro t r hm
    simp [set_current_range, hm]
  · intro t a x hx hiv
    simp only [set_voltage_amplitude, hx]
    rw [if_neg hiv]
  · intro t a x hx hiv
    simp only [set_current_amplitude, hx]
    rw [if_neg hiv]
  · intro t a hx
    simp [set_acv_frequency, hx]
  · intro t voltage current frequency phase vq cq fq pq hc hv hcu hf hp hvle hcle hph
    obtain ⟨vr, hvr⟩ := voltRangChain_le vq hvle
    obtain ⟨cr, hcr⟩ := currRangChain_le cq hcle
    simp only [set_ac_power, output_disable, writeData, hc, if_true, hv, hcu, hf, hp,
      hvr, hcr]
    rw [if_neg hph]
    refine ⟨rfl, by simp, by simp⟩

/-- Witness for C2 (amended): an unknown range token transmits nothing,
an out-of-interval amplitude transmits nothing, and set_ac_power with
phase 100 returns False after transmitting commands. -/
theorem C2_witness :
    set_voltage_range allOk (PyVal.int 5) = (false, []) ∧
    set_voltage_amplitude allOk (PyVal.int 2000) = (false, []) ∧
    (set_ac_power allOk (PyVal.int 230) (PyVal.int 10) (PyVal.int 50) (PyVal.int 100)).1 = false ∧
    Ev.wr ("UNIT:PHAS DEG") ∈
      (set_ac_power allOk (PyVal.int 230) (PyVal.int 10) (PyVal.int 50) (PyVal.int 100)).2 := by
  refine ⟨?_, ?_, ?_⟩
  · exact C2_amended_validation_failures.1 allOk (PyVal.int 5) (by decide)
  · exact C2_amended_validation_failures.2.2.1 allOk (PyVal.int 2000) 2000 (by decide)
      (by rintro ⟨-, h⟩; norm_num at h)
  · have h := C2_amended_validation_failures.2.2.2.2.2 allOk (PyVal.int 230) (PyVal.int 10)
      (PyVal.int 50) (PyVal.int 100) 230 10 50 100 rfl (by decide) (by decide) (by decide)
      (by decide) (by norm_num) (by norm_num) (by rintro ⟨-, h⟩; norm_num at h)
    exact ⟨h.1, h.2.1⟩

/-- Counterexample to C3: requested voltage 21 makes set_ac_power select
and transmit range 20, not range 200 as the claim states. -/
theorem C3_counterexample :
    (set_ac_power allOk (PyVal.int 21) (PyVal.int 1) (PyVal.int 50) (PyVal.int 0)).1 = true ∧
    Ev.wr ("pow:rang 20,2") ∈
      (set_ac_power allOk (PyVal.int 21) (PyVal.int 1) (PyVal.int 50) (PyVal.int 0)).2 ∧
    Ev.wr ("pow:rang 200,2") ∉
      (set_ac_power allOk (PyVal.int 21) (PyVal.int 1) (PyVal.int 50) (PyVal.int 0)).2 ∧
    Ev.wr ("pow:rang 200,20") ∉
      (set_ac_power allOk (PyVal.int 21) (PyVal.int 1) (PyVal.int 50) (PyVal.int 0)).2 := by
  refine ⟨by decide, by decide, by decide, by decide⟩

/-- The enumerated power voltage ranges, smallest first, paired with the
value the driver interpolates into the range command (spec 4.2). -/
def powerVoltRanges : List (ℚ × PyVal) :=
  [(mkRat 1 50, .float (mkRat 1 50)), (mkRat 1 5, .float (mkRat 1 5)),
   (2, .int 2), (20, .int 20), (200, .int 200), (1000, .int 1000)]

/-- The enumerated power current ranges, smallest first (spec 4.2). -/
def powerCurrRanges : List (ℚ × PyVal) :=
  [(2, .int 2), (20, .int 20)]

/-- Modelled from the spec (amended): the smallest enumerated range
whose value scaled by the 1.1 headroom factor is at least the requested
magnitude. -/
def smallestHeadroomRange (rs : List (ℚ × PyVal)) (m : ℚ) : Option PyVal :=
  (rs.find? (fun rv => decide (m ≤ qMul rv.1 (mkRat 11 10)))).map (fun rv => rv.2)

/-- The driver voltage breakpoint chain agrees with the smallest
headroom range selection, except that it additionally caps the voltage
at 1050 (not at 1100, which the top range with headroom would allow). -/
theorem voltRangChain_eq_smallest (v : ℚ) :
    voltRangChain v =
      if v ≤ 1050 then smallestHeadroomRange powerVoltRanges v else none := by
  have q1 : qMul (mkRat 1 50) (mkRat 11 10) = mkRat 11 500 := by decide
  have q2 : qMul (mkRat 1 5) (mkRat 11 10) = mkRat 11 50 := by decide
  have q3 : qMul 2 (mkRat 11 10) = mkRat 11 5 := by decide
  have q4 : qMul 20 (mkRat 11 10) = 22 := by decide
  have q5 : qMul 200 (mkRat 11 10) = 220 := by decide
  have q6 : qMul 1000 (mkRat 11 10) = 1100 := by decide
  simp only [smallestHeadroomRange, powerVoltRanges, List.find?_cons, List.find?_nil,
    q1, q2, q3, q4, q5, q6, voltRangChain]
  by_cases h1 : v ≤ mkRat 11 500
  · have hv : v ≤ (1050 : ℚ) := by rw [Rat.mkRat_eq_div] at h1; linarith
    simp [h1, hv]
  · by_cases h2 : v ≤ mkRat 11 50
    · have hv : v ≤ (1050 : ℚ) := by rw [Rat.mkRat_eq_div] at h2; linarith
      simp [h1, h2, hv]
    · by_cases h3 : v ≤ mkRat 11 5
      · have hv : v ≤ (1050 : ℚ) := by rw [Rat.mkRat_eq_div] at h3; linarith
        simp [h1, h2, h3, hv]
      · by_cases h4 : v ≤ (22 : ℚ)
        · have hv : v ≤ (1050 : ℚ) := by linarith
          simp [h1, h2, h3, h4, hv]
        · by_cases h5 : v ≤ (220 : ℚ)
          · have hv : v ≤ (1050 : ℚ) := by linarith
            simp [h1, h2, h3, h4, h5, hv]
          · by_cases h6 : v ≤ (1050 : ℚ)
            · have hv : v ≤ (1100 : ℚ) := by linarith
              simp [h1, h2, h3, h4, h5, h6, hv]
            · simp [h1, h2, h3, h4, h5, h6]

/-- The driver current breakpoint chain is exactly the smallest headroom
range selection over the two current ranges. -/
theorem currRangChain_eq_smallest (c : ℚ) :
    currRangChain c = smallestHeadroomRange powerCurrRanges c := by
  have q1 : qMul 2 (mkRat 11 10) = mkRat 11 5 := by decide
  have q2 : qMul 20 (mkRat 11 10) = 22 := by decide
  simp only [smallestHeadroomRange, powerCurrRanges, List.find?_cons, List.find?_nil,
    q1, q2, currRangChain]
  by_cases h1 : c ≤ mkRat 11 5
  · simp [h1]
  · by_cases h2 : c ≤ (22 : ℚ)
    · simp [h1, h2]
    · simp [h1, h2]

/-- The voltage breakpoint chain rejects every voltage above 1050. -/
theorem voltRangChain_gt (v : ℚ) (h : 1050 < v) : voltRangChain v = none := by
  unfold voltRangChain
  split_ifs with a b c d e f
  · exfalso; rw [Rat.mkRat_eq_div] at a; linarith
  · exfalso; rw [Rat.mkRat_eq_div] at b; linarith
  · exfalso; rw [Rat.mkRat_eq_div] at c; linarith
  · exfalso; linarith
  · exfalso; linarith
  · exfalso; linarith
  · rfl

/-- The current breakpoint chain rejects every current above 22. -/
theorem currRangChain_gt (c : ℚ) (h : 22 < c) : currRangChain c = none := by
  unfold currRangChain
  split_ifs with a b
  · exfalso; rw [Rat.mkRat_eq_div] at a; linarith
  · exfalso; linarith
  · rfl

/-- C3 (amended): the power breakpoint algorithm selects the smallest
enumerated range whose value scaled by the 1.1 headroom factor is at
least the requested magnitude, with the voltage additionally capped at
the hard limit 1050; the selected pair is interpolated into the
transmitted range command.  A voltage above 1050 or a current above 22
makes the whole operation fail with only the output-disable command
transmitted.  In particular voltage 21 selects range 20. -/
theorem C3_amended_range_selection :
    (∀ v : ℚ, voltRangChain v =
        if v ≤ 1050 then smallestHeadroomRange powerVoltRanges v else none) ∧
    (∀ c : ℚ, currRangChain c = smallestHeadroomRange powerCurrRanges c) ∧
    (∀ (t : Transport) (voltage current frequency phase : PyVal) (vq cq fq pq : ℚ),
        t.connected = true →
        pyFloat voltage = some vq → pyFloat current = some cq →
        pyFloat frequency = some fq → pyFloat phase = some pq →
        vq ≤ 1050 → cq ≤ 22 →
        ∃ vr cr, smallestHeadroomRange powerVoltRanges vq = some vr ∧
          smallestHeadroomRange powerCurrRanges cq = some cr ∧
          Ev.wr ("pow:rang " ++ pyRepr vr ++ "," ++ pyRepr cr) ∈
            (set_ac_power t voltage current frequency phase).2 ∧
          Ev.wr ("pow:rang " ++ pyRepr vr ++ "," ++ pyRepr cr) ∈
            (set_dc_power t voltage current).2) ∧
    (∀ (t : Transport) (voltage current frequency phase : PyVal) (vq : ℚ),
        pyFloat voltage = some vq → 1050 < vq →
        set_ac_power t voltage current frequency phase = (false, (output_disable t).2) ∧
        set_dc_power t voltage current = (false, (output_disable t).2)) ∧
    (∀ (t : Transport) (voltage current frequency phase : PyVal) (vq cq : ℚ),
        pyFloat voltage = some vq → pyFloat current = some cq → vq ≤ 1050 → 22 < cq →
        set_ac_power t voltage current frequency phase = (false, (output_disable t).2) ∧
        set_dc_power t voltage current = (false, (output_disable t).2)) := by
  refine ⟨voltRangChain_eq_smallest, currRangChain_eq_smallest, ?_, ?_, ?_⟩
  · intro t voltage current frequency phase vq cq fq pq hc hv hcu hf hp hvle hcle
    obtain ⟨vr, hvr⟩ := voltRangChain_le vq hvle
    obtain ⟨cr, hcr⟩ := currRangChain_le cq hcle
    have hsv : smallestHeadroomRange powerVoltRanges vq = some vr := by
      have h := hvr
      rw [voltRangChain_eq_smallest, if_pos hvle] at h
      exact h
    have hsc : smallestHeadroomRange powerCurrRanges cq = some cr := by
      have h := hcr
      rw [currRangChain_eq_smallest] at h
      exact h
    refine ⟨vr, cr, hsv, hsc, ?_, ?_⟩
    · simp only [set_ac_power, output_disable, writeData, hc, if_true, hv, hcu, hf, hp,
        hvr, hcr]
      split_ifs <;> simp
    · simp only [set_dc_power, output_disable, writeData, hc, if_true, hv, hcu, hvr, hcr]
      simp
  · intro t voltage current frequency phase vq hv hgt
    have hnone := voltRangChain_gt vq hgt
    rcases ho : output_disable t with ⟨b0, e0⟩
    constructor
    · rcases hcu : pyFloat current with _ | cq <;>
      rcases hf : pyFloat frequency with _ | fq <;>
      rcases hp : pyFloat phase with _ | pq <;>
      simp [set_ac_power, ho, hv, hcu, hf, hp, hnone]
    · rcases hcu : pyFloat current with _ | cq <;>
      simp [set_dc_power, ho, hv, hcu, hnone]
  · intro t voltage current frequency phase vq cq hv hcu hvle hgt
    obtain ⟨vr, hvr⟩ := voltRangChain_le vq hvle
    have hnone := currRangChain_gt cq hgt
    rcases ho : output_disable t with ⟨b0, e0⟩
    constructor
    · rcases hf : pyFloat frequency with _ | fq <;>
      rcases hp : pyFloat phase with _ | pq <;>
      simp [set_ac_power, ho, hv, hcu, hf, hp, hvr, hnone]
    · simp [set_dc_power, ho, hv, hcu, hvr, hnone]

/-- Witness for C3 (amended): voltage 21 selects range 20 and that
range is transmitted; voltage 1051 fails with only output-disable
transmitted. -/
theorem C3_witness :
    (∃ vr cr, smallestHeadroomRange powerVoltRanges 21 = some vr ∧
      smallestHeadroomRange powerCurrRanges 1 = some cr ∧
      Ev.wr ("pow:rang " ++ pyRepr vr ++ "," ++ pyRepr cr) ∈
        (set_ac_power allOk (PyVal.int 21) (PyVal.int 1) (PyVal.int 50) (PyVal.int 0)).2 ∧
      Ev.wr ("pow:rang " ++ pyRepr vr ++ "," ++ pyRepr cr) ∈
        (set_dc_power allOk (PyVal.int 21) (PyVal.int 1)).2) ∧
    set_ac_power allOk (PyVal.int 1051) (PyVal.int 1) (PyVal.int 50) (PyVal.int 0) =
      (false, (output_disable allOk).2) ∧
    smallestHeadroomRange powerVoltRanges 21 = some (PyVal.int 20) := by
  refine ⟨?_, ?_, by decide⟩
  · exact C3_amended_range_selection.2.2.1 allOk (PyVal.int 21) (PyVal.int 1) (PyVal.int 50)
      (PyVal.int 0) 21 1 50 0 rfl (by decide) (by decide) (by decide) (by decide)
      (by norm_num) (by norm_num)
  · exact (C3_amended_range_selection.2.2.2.1 allOk (PyVal.int 1051) (PyVal.int 1)
      (PyVal.int 50) (PyVal.int 0) 1051 (by decide) (by norm_num)).1

/-- Counterexample to C4: the numeric form 20 and the string form 20V
both validate, but the encoded commands differ, because the driver
interpolates the token exactly as spelled. -/
theorem C4_counterexample :
    set_voltage_range allOk (PyVal.int 20) = (true, [Ev.wr ("VOLT:RANG 20")]) ∧
    set_voltage_range allOk (PyVal.str ("20V")) = (true, [Ev.wr ("VOLT:RANG 20V")]) ∧
    ("VOLT:RANG 20" : String) ≠ "VOLT:RANG 20V" := by
  refine ⟨by decide, by decide, by decide⟩

/-- The documented voltage range tokens, pairing each string spelling
with its canonical numeric spelling. -/
def voltageRangePairs : List (PyVal × PyVal) :=
  [(.str ("20mV"), .float (mkRat 1 50)), (.str ("200mV"), .float (mkRat 1 5)),
   (.str ("2V"), .int 2), (.str ("20V"), .int 20), (.str ("200V"), .int 200),
   (.str ("1kV"), .int 1000)]

/-- The documented current range tokens, pairing each string spelling
with its canonical numeric spelling. -/
def currentRangePairs : List (PyVal × PyVal) :=
  [(.str ("200uA"), .float (mkRat 1 5000)), (.str ("2mA"), .float (mkRat 1 500)),
   (.str ("20mA"), .float (mkRat 1 50)), (.str ("200mA"), .float (mkRat 1 5)),
   (.str ("2A"), .int 2), (.str ("20A"), .int 20)]

/-- C4 (amended): for every documented range token pair, the string form
and the numeric form both validate and both transmit a range command and
return the transport write status, but the transmitted command embeds
the literal spelling of the argument, so the two command strings always
differ. -/
theorem C4_amended_range_token_forms :
    (∀ (t : Transport), ∀ p ∈ voltageRangePairs,
        set_voltage_range t p.1 = writeData t ("VOLT:RANG " ++ pyRepr p.1) ∧
        set_voltage_range t p.2 = writeData t ("VOLT:RANG " ++ pyRepr p.2) ∧
        pyRepr p.1 ≠ pyRepr p.2) ∧
    (∀ (t : Transport), ∀ p ∈ currentRangePairs,
        set_current_range t p.1 = writeData t ("CURR:RANG " ++ pyRepr p.1) ∧
        set_current_range t p.2 = writeData t ("CURR:RANG " ++ pyRepr p.2) ∧
        pyRepr p.1 ≠ pyRepr p.2) := by
  constructor
  · intro t p hp
    fin_cases hp <;>
      exact ⟨by simp only [set_voltage_range]; rw [if_pos (by decide)],
             by simp only [set_voltage_range]; rw [if_pos (by decide)],
             by decide⟩
  · intro t p hp
    fin_cases hp <;>
      exact ⟨by simp only [set_current_range]; rw [if_pos (by decide)],
             by simp only [set_current_range]; rw [if_pos (by decide)],
             by decide⟩

/-- Witness for C4 (amended): the pair 20V and 20 both validate and
transmit, with distinct encoded commands. -/
theorem C4_witness :
    set_voltage_range allOk (PyVal.str ("20V")) =
      writeData allOk ("VOLT:RANG " ++ pyRepr (PyVal.str ("20V"))) ∧
    set_voltage_range allOk (PyVal.int 20) =
      writeData allOk ("VOLT:RANG " ++ pyRepr (PyVal.int 20)) ∧
    pyRepr (PyVal.str ("20V")) ≠ pyRepr (PyVal.int 20) :=
  C4_amended_range_token_forms.1 allOk (PyVal.str ("20V"), PyVal.int 20) (by decide)

/-- Counterexample to C6: set_acv_frequency with frequency 30000
returns Python None rather than a boolean, and get_ac_power called on a
closed connection raises (the reply None has no upper method) rather
than failing cleanly. -/
theorem C6_counterexample :
    set_acv_frequency allOk (PyVal.int 30000) = (none, []) ∧
    get_ac_power closedTransport ("WATT") = (Except.error (), []) := by
  constructor
  · decide
  · rfl

/-- C6 (amended): the driver surfaces most failures as a boolean or
sentinel, with these exceptions: set_acv_frequency returns None when the
frequency coerces but lies outside 1..20000; set_oscilloscope_frequency
returns None whenever the argument coerces, even on success; and the
power get operations raise when the function query fails, as after
close_connection.  The simple setters do fail cleanly with False on a
closed connection. -/
theorem C6_amended_failure_surfacing :
    (∀ (t : Transport) (f : PyVal) (n : Int), pyInt f = some n →
        ¬ (0 < n ∧ n ≤ 20000) → set_acv_frequency t f = (none, [])) ∧
    (∀ (t : Transport) (f : PyVal), pyInt f = none →
        set_acv_frequency t f = (some false, [])) ∧
    (∀ (t : Transport) (f : PyVal) (x : ℚ), pyFloat f = some x →
        (set_oscilloscope_frequency t f).1 = none) ∧
    (∀ (t : Transport) (u : String), t.connected = false →
        get_ac_power t u = (Except.error (), []) ∧
        get_dc_power t u = (Except.error (), []) ∧
        get_ac_power_parameters t = (Except.error (), [])) ∧
    (∀ (t : Transport) (r : PyVal), t.connected = false →
        (set_voltage_range t r).1 = false ∧ (set_current_range t r).1 = false ∧
        (set_voltage_amplitude t r).1 = false ∧ (set_current_amplitude t r).1 = false) := by
  refine ⟨?_, ?_, ?_, ?_, ?_⟩
  · intro t f n hn hrange
    simp only [set_acv_frequency, hn]
    rw [if_neg hrange]
  · intro t f hn
    simp [set_acv_frequency, hn]
  · intro t f x hx
    simp only [set_oscilloscope_frequency, hx]
    rcases hw : writeData t ("puls:sfr " ++ floatRepr x) with ⟨b, e⟩
    split_ifs <;> simp [hw]
  · intro t u hc
    refine ⟨?_, ?_, ?_⟩ <;> simp [get_ac_power, get_dc_power, get_ac_power_parameters,
      getData, hc]
  · intro t r hc
    refine ⟨?_, ?_, ?_, ?_⟩
    · unfold set_voltage_range
      split_ifs <;> simp [writeData, hc]
    · unfold set_current_range
      split_ifs <;> simp [writeData, hc]
    · rcases hr : pyFloat r with _ | xq
      · simp [set_voltage_amplitude, hr]
      · simp [set_voltage_amplitude, hr, get_voltage_range, getData, hc]
    · rcases hr : pyFloat r with _ | xq
      · simp [set_current_amplitude, hr]
      · simp [set_current_amplitude, hr, get_current_range, getData, hc]

/-- Witness for C6 (amended): frequency 30000 yields None, a
non-numeric frequency yields False, oscilloscope frequency 100 yields
None on success, and get_ac_power on a closed connection raises. -/
theorem C6_witness :
    set_acv_frequency allOk (PyVal.int 30000) = (none, []) ∧
    set_acv_frequency allOk (PyVal.str ("abc")) = (some false, []) ∧
    (set_oscilloscope_frequency allOk (PyVal.int 100)).1 = none ∧
    get_ac_power closedTransport ("VA") = (Except.error (), []) := by
  refine ⟨?_, ?_, ?_, ?_⟩
  · exact C6_amended_failure_surfacing.1 allOk (PyVal.int 30000) 30000 (by decide) (by decide)
  · exact C6_amended_failure_surfacing.2.1 allOk (PyVal.str ("abc")) (by decide)
  · exact C6_amended_failure_surfacing.2.2.1 allOk (PyVal.int 100) 100 (by decide)
  · exact (C6_amended_failure_surfacing.2.2.2.1 closedTransport ("VA") rfl).1
